import Mathlib

/-!
Shallow embedding of the run orchestrator in `src/main.py` of
heiko-hotz/genai-agent-tool-selection-testing.

The orchestrator is modelled as a pure function from the parsed
command-line arguments (`Args`, mirroring the argparse namespace built in
`main.py` lines 51-83) and an environment of collaborator behaviours
(`Env`) to a trace of observable events (`Event`) together with a final
outcome (`Outcome`).  External collaborators (model clients, the tester,
the normalizer, the evaluator) are black boxes whose results are supplied
by `Env`; every call to them is recorded as an event.
-/

namespace ToolSelection

/-- Wall-clock instant, as far as `datetime.now().strftime` consumes it.
The `microsecond` field exists to state that the run-directory name has
second resolution. -/
structure DateTime where
  year : Nat
  month : Nat
  day : Nat
  hour : Nat
  minute : Nat
  second : Nat
  microsecond : Nat
deriving DecidableEq, Repr

/-- Zero-pad a number to two digits, as strftime field formats do. -/
def pad2 (n : Nat) : String :=
  if n < 10 then "0" ++ toString n else toString n

/-- Zero-pad a year to four digits, as the strftime year format does. -/
def pad4 (n : Nat) : String :=
  if n < 10 then "000" ++ toString n
  else if n < 100 then "00" ++ toString n
  else if n < 1000 then "0" ++ toString n
  else toString n

/-- Embedding of the timestamp format string used at `main.py` line 94:
year, month, day, underscore, hour, minute, second.  The microsecond
field is not consumed. -/
def strftimeTs (d : DateTime) : String :=
  pad4 d.year ++ pad2 d.month ++ pad2 d.day ++ "_" ++
    pad2 d.hour ++ pad2 d.minute ++ pad2 d.second

/-- Embedding of `os.path.join` on a POSIX system, as used in `main.py`. -/
def joinPath (a b : String) : String := a ++ "/" ++ b

/-- Run-directory path derived at `main.py` lines 94-95:
`results/test_run_<timestamp>`. -/
def runDirectory (d : DateTime) : String :=
  joinPath "results" ("test_run_" ++ strftimeTs d)

/-- Embedding of `os.makedirs(path, exist_ok=True)` (`main.py` line 96) on a
file system modelled as the list of existing directories: with
`exist_ok=True` the call succeeds whether or not the directory exists. -/
def makedirsExistOk (fs : List String) (path : String) : Except String (List String) :=
  if path ∈ fs then Except.ok fs else Except.ok (path :: fs)

/-- JSON values, as far as `json.dump` output in `main.py` is observed.
Arrays and objects are represented cons-style inside the one inductive so
that equality stays decidable by derivation. -/
inductive JValue where
  | null : JValue
  | bool (b : Bool) : JValue
  | num (n : Int) : JValue
  | str (s : String) : JValue
  | arrNil : JValue
  | arrCons (hd tl : JValue) : JValue
  | objNil : JValue
  | objCons (key : String) (val rest : JValue) : JValue
deriving DecidableEq, Repr

/-- Build a JSON object from a key-value list. -/
def JValue.objOf : List (String × JValue) → JValue
  | [] => JValue.objNil
  | (k, v) :: rest => JValue.objCons k v (JValue.objOf rest)

/-- A constructed model client, identified by its construction arguments
(`main.py` lines 125-135).  Temperature is an integer because both
constructions pass the literal zero. -/
inductive Model where
  | openai (model_name : String) (api_key : String) (temperature : Int) : Model
  | gemini (model_id : String) (temperature : Int) : Model
deriving DecidableEq, Repr

/-- Observable events of one orchestrator invocation, in program order. -/
inductive Event where
  | makeDirs (path : String) : Event
  | logInfo (msg : String) : Event
  | logError (msg : String) : Event
  | loadDatasetCall (path : String) : Event
  | constructModel (m : Model) : Event
  | constructTester (m : Model) : Event
  | runTests : Event
  | writeFile (path : String) (content : JValue) : Event
  | processRaw (path : String) (m : Model) : Event
  | constructEvaluatorFull (judge : String) : Event
  | constructEvaluatorEvalOnly (judge : String) : Event
  | evaluateResults (path : String) : Event
  | saveResults (dir : String) : Event
deriving DecidableEq, Repr

/-- Final outcome of one invocation of `main`. -/
inductive Outcome where
  | usageError (msg : String) : Outcome
  | attributeError (attr : String) : Outcome
  | uncaught (msg : String) : Outcome
  | normal : Outcome
deriving DecidableEq, Repr

/-- Behaviour of the evaluator collaborator when its scoring operation
`evaluate_results` is awaited. -/
inductive EvalOutcome where
  | ok : EvalOutcome
  | valueError (msg : String) : EvalOutcome
  | otherError (msg : String) : EvalOutcome
deriving DecidableEq, Repr

/-- The parsed argparse namespace of `main.py` lines 51-83.  Fields are
exactly the destinations the parser defines; `--mode` and
`--run-both-tool-modes` are NOT among them (see `parserDests`). -/
structure Args where
  eval_only : Bool := false
  processed_responses : Option String := none
  model_type : Option String := none
  dataset : Option String := none
  openai_model_name : String := "gpt-4o-mini"
  gemini_model_id : String := "gemini-1.5-flash-002"
  openai_api_key : Option String := none
  semantic_judge_model : String := "gemini-1.5-pro-002"
  skip_evaluation : Bool := false

/-- The attribute names the argument parser actually defines on the parsed
namespace (one per `add_argument` call, `main.py` lines 54-81). -/
def parserDests : List String :=
  ["eval_only", "processed_responses", "model_type", "dataset",
   "openai_model_name", "gemini_model_id", "openai_api_key",
   "semantic_judge_model", "skip_evaluation"]

/-- Python truthiness of an optional string value, as consumed by
`if not args.x` checks: absent or empty strings are falsy. -/
def truthy : Option String → Bool
  | none => false
  | some s => !s.isEmpty

/-- Rendering of an optional string inside a Python f-string. -/
def optStr : Option String → String
  | none => "None"
  | some s => s

/-- Behaviour of the external collaborators and of the ambient process
state for one invocation.  `env_openai_api_key` models the OS environment
variable a user might set; `main.py` never reads it. -/
structure Env where
  now : DateTime
  fs : List String
  dataset_json : String → Option (List JValue)
  tester_result : Except String JValue
  processed_result : Except String JValue
  evaluate_outcome : EvalOutcome
  env_openai_api_key : Option String := none

/-- The `test_parameters` record built at `main.py` lines 161-170. -/
def paramsJson (args : Args) (env : Env) (ds : String) : JValue :=
  JValue.objOf [
    ("timestamp", JValue.str (strftimeTs env.now)),
    ("model_type", JValue.str (optStr args.model_type)),
    ("dataset_path", JValue.str ds),
    ("model_id", JValue.str (if args.model_type = some "gemini" then
        args.gemini_model_id else args.openai_model_name)),
    ("semantic_judge_model", if args.skip_evaluation then JValue.null
        else JValue.str args.semantic_judge_model),
    ("generation_config", JValue.objOf [("temperature", JValue.num 0)])]

/-- Events of `main.py` lines 140-148: log, tester construction, test run. -/
def testExecEvents (m : Model) : List Event :=
  [Event.logInfo "Starting test execution...", Event.constructTester m,
   Event.runTests]

/-- Events of `main.py` lines 150-155: the raw-results write and the
normalizer call that receives the file path and the model client. -/
def rawHandoffEvents (rdir : String) (raw : JValue) (m : Model) : List Event :=
  [Event.writeFile (joinPath rdir "raw_responses.json")
     (JValue.objOf [("test_results", raw)]),
   Event.processRaw (joinPath rdir "raw_responses.json") m]

/-- Events of `main.py` lines 156-174: the processed-results write and the
parameters-snapshot write. -/
def persistEvents (args : Args) (env : Env) (rdir ds : String)
    (processed : JValue) : List Event :=
  [Event.writeFile (joinPath rdir "processed_responses.json") processed,
   Event.writeFile (joinPath rdir "test_parameters.json") (paramsJson args env ds)]

/-- Events of `main.py` lines 177-184: log, evaluator construction, the
awaited scoring call against the processed-results file. -/
def evalStartEvents (args : Args) (rdir : String) : List Event :=
  [Event.logInfo "Starting evaluation...",
   Event.constructEvaluatorFull args.semantic_judge_model,
   Event.evaluateResults (joinPath rdir "processed_responses.json")]

/-- Events of `main.py` lines 189-192 (the skip branch; note the final log
sits inside this branch in the source). -/
def skipEvents (rdir : String) : List Event :=
  [Event.logInfo "Skipping evaluation as per user request.",
   Event.logInfo ("Results saved to: " ++ rdir)]

/-- Generation, normalization, parameters snapshot and evaluation,
`main.py` lines 140-192, entered with a constructed model client. -/
def generationPhase (args : Args) (env : Env) (rdir ds : String) (m : Model)
    (tr : List Event) : List Event × Outcome :=
  let tr := tr ++ testExecEvents m
  match env.tester_result with
  | Except.error msg => (tr, Outcome.uncaught msg)
  | Except.ok raw =>
    let tr := tr ++ rawHandoffEvents rdir raw m
    match env.processed_result with
    | Except.error msg => (tr, Outcome.uncaught msg)
    | Except.ok processed =>
      let tr := tr ++ persistEvents args env rdir ds processed
      if args.skip_evaluation = false then
        let tr := tr ++ evalStartEvents args rdir
        match env.evaluate_outcome with
        | EvalOutcome.ok => (tr ++ [Event.saveResults rdir], Outcome.normal)
        | EvalOutcome.valueError msg =>
            (tr ++ [Event.logError ("Evaluation failed: " ++ msg)], Outcome.normal)
        | EvalOutcome.otherError msg => (tr, Outcome.uncaught msg)
      else
        (tr ++ skipEvents rdir, Outcome.normal)

/-- Events of `main.py` lines 115-117: the two opening logs and the
dataset read. -/
def fullPrefixEvents (args : Args) (ds : String) : List Event :=
  [Event.logInfo ("\nStarting test run with " ++ optStr args.model_type ++ " model"),
   Event.logInfo ("Loading dataset from: " ++ ds),
   Event.loadDatasetCall ds]

/-- Log event of `main.py` line 118. -/
def loadedEvent (tds : List JValue) : Event :=
  Event.logInfo ("Loaded " ++ toString tds.length ++ " test cases")

/-- Full-mode body, `main.py` lines 115-192: logging, dataset load, model
construction (with the credential gate at lines 120-123), then the
generation phase. -/
def fullRun (args : Args) (env : Env) (rdir ds : String)
    (tr : List Event) : List Event × Outcome :=
  let tr := tr ++ fullPrefixEvents args ds
  match env.dataset_json ds with
  | none => (tr, Outcome.uncaught ("load_dataset failed for " ++ ds))
  | some tds =>
    let tr := tr ++ [loadedEvent tds]
    if args.model_type = some "openai" then
      if truthy args.openai_api_key = false then
        (tr ++ [Event.logError "Error: OpenAI API key is required for OpenAI model."],
         Outcome.normal)
      else
        let m := Model.openai args.openai_model_name (optStr args.openai_api_key) 0
        generationPhase args env rdir ds m
          (tr ++ [Event.logInfo ("Initializing OpenAI model: " ++ args.openai_model_name),
                  Event.constructModel m])
    else if args.model_type = some "gemini" then
      let m := Model.gemini args.gemini_model_id 0
      generationPhase args env rdir ds m
        (tr ++ [Event.logInfo ("Initializing Gemini model: " ++ args.gemini_model_id),
                Event.constructModel m])
    else
      (tr ++ [Event.logError "Invalid model type."], Outcome.normal)

/-- Evaluation-only body, `main.py` lines 99-113.  The `Evaluator` call at
lines 104-108 passes `test_mode=args.mode` and
`run_both_tool_modes=args.run_both_tool_modes`; Python evaluates these
attribute lookups left to right before constructing the object, and the
parser defines neither destination (`parserDests`), so the first lookup
raises `AttributeError` for `mode` and the evaluator is never constructed.
The guarded branch spells out what the code would do if both attributes
existed. -/
def evalOnlyRun (args : Args) (env : Env) (rdir p : String)
    (tr : List Event) : List Event × Outcome :=
  let tr := tr ++ [Event.logInfo "\nStarting evaluation-only mode",
                   Event.logInfo ("Loading processed responses from: " ++ p)]
  if "mode" ∈ parserDests then
    if "run_both_tool_modes" ∈ parserDests then
      let tr := tr ++ [Event.constructEvaluatorEvalOnly args.semantic_judge_model,
                       Event.evaluateResults p, Event.saveResults rdir]
      match env.evaluate_outcome with
      | EvalOutcome.ok =>
          (tr ++ [Event.logInfo ("Results saved to: " ++ rdir)], Outcome.normal)
      | EvalOutcome.valueError msg => (tr, Outcome.uncaught msg)
      | EvalOutcome.otherError msg => (tr, Outcome.uncaught msg)
    else (tr, Outcome.attributeError "run_both_tool_modes")
  else (tr, Outcome.attributeError "mode")

/-- Embedding of `async def main()` in `main.py` lines 50-192: argument
validation (lines 85-92), run-directory creation (lines 94-96), then mode
dispatch. -/
def main (args : Args) (env : Env) : List Event × Outcome :=
  if args.eval_only = false then
    if truthy args.model_type = false then
      ([], Outcome.usageError "--model-type is required when not in eval-only mode")
    else if truthy args.dataset = false then
      ([], Outcome.usageError "--dataset is required when not in eval-only mode")
    else
      let rdir := runDirectory env.now
      fullRun args env rdir (optStr args.dataset) [Event.makeDirs rdir]
  else if truthy args.processed_responses = false then
    ([], Outcome.usageError "--processed-responses is required when using eval-only mode")
  else
    let rdir := runDirectory env.now
    evalOnlyRun args env rdir (optStr args.processed_responses) [Event.makeDirs rdir]

/-- Is the event a file write performed by the orchestrator itself. -/
def isWrite : Event → Bool
  | Event.writeFile _ _ => true
  | Event.makeDirs _ => false
  | Event.logInfo _ => false
  | Event.logError _ => false
  | Event.loadDatasetCall _ => false
  | Event.constructModel _ => false
  | Event.constructTester _ => false
  | Event.runTests => false
  | Event.processRaw _ _ => false
  | Event.constructEvaluatorFull _ => false
  | Event.constructEvaluatorEvalOnly _ => false
  | Event.evaluateResults _ => false
  | Event.saveResults _ => false

/-- Is the event the awaited scoring call of the evaluator. -/
def isEvaluate : Event → Bool
  | Event.evaluateResults _ => true
  | Event.makeDirs _ => false
  | Event.logInfo _ => false
  | Event.logError _ => false
  | Event.loadDatasetCall _ => false
  | Event.constructModel _ => false
  | Event.constructTester _ => false
  | Event.runTests => false
  | Event.writeFile _ _ => false
  | Event.processRaw _ _ => false
  | Event.constructEvaluatorFull _ => false
  | Event.constructEvaluatorEvalOnly _ => false
  | Event.saveResults _ => false

/-- Is the event a dataset read. -/
def isLoadDataset : Event → Bool
  | Event.loadDatasetCall _ => true
  | Event.makeDirs _ => false
  | Event.logInfo _ => false
  | Event.logError _ => false
  | Event.constructModel _ => false
  | Event.constructTester _ => false
  | Event.runTests => false
  | Event.writeFile _ _ => false
  | Event.processRaw _ _ => false
  | Event.constructEvaluatorFull _ => false
  | Event.constructEvaluatorEvalOnly _ => false
  | Event.evaluateResults _ => false
  | Event.saveResults _ => false

/-- Is the event a model-client construction. -/
def isModelConstruction : Event → Bool
  | Event.constructModel _ => true
  | Event.makeDirs _ => false
  | Event.logInfo _ => false
  | Event.logError _ => false
  | Event.loadDatasetCall _ => false
  | Event.constructTester _ => false
  | Event.runTests => false
  | Event.writeFile _ _ => false
  | Event.processRaw _ _ => false
  | Event.constructEvaluatorFull _ => false
  | Event.constructEvaluatorEvalOnly _ => false
  | Event.evaluateResults _ => false
  | Event.saveResults _ => false

/-- Is the event an evaluator construction, scoring call or results save. -/
def isEvaluatorEvent : Event → Bool
  | Event.constructEvaluatorFull _ => true
  | Event.constructEvaluatorEvalOnly _ => true
  | Event.evaluateResults _ => true
  | Event.saveResults _ => true
  | Event.makeDirs _ => false
  | Event.logInfo _ => false
  | Event.logError _ => false
  | Event.loadDatasetCall _ => false
  | Event.constructModel _ => false
  | Event.constructTester _ => false
  | Event.runTests => false
  | Event.writeFile _ _ => false
  | Event.processRaw _ _ => false

/-- No orchestrator file write occurs after any scoring call. -/
def noWriteAfterEvaluate : List Event → Bool
  | [] => true
  | e :: rest =>
    if isEvaluate e then
      rest.all (fun x => !isWrite x) && noWriteAfterEvaluate rest
    else noWriteAfterEvaluate rest

/-- Event e1 occurs somewhere in the trace with e2 immediately after it. -/
def adjacentIn (e1 e2 : Event) : List Event → Prop
  | [] => False
  | a :: rest => (a = e1 ∧ rest.head? = some e2) ∨ adjacentIn e1 e2 rest

/-- Is the event a normalizer invocation. -/
def isProcessRaw : Event → Bool
  | Event.processRaw _ _ => true
  | Event.makeDirs _ => false
  | Event.logInfo _ => false
  | Event.logError _ => false
  | Event.loadDatasetCall _ => false
  | Event.constructModel _ => false
  | Event.constructTester _ => false
  | Event.runTests => false
  | Event.writeFile _ _ => false
  | Event.constructEvaluatorFull _ => false
  | Event.constructEvaluatorEvalOnly _ => false
  | Event.evaluateResults _ => false
  | Event.saveResults _ => false

/-- Every scoring call in the trace targets the path p. -/
def evaluatesOnly (p : String) (e : Event) : Bool :=
  match e with
  | Event.evaluateResults q => decide (q = p)
  | _ => true

/-- A sample wall-clock instant for concrete runs. -/
def sampleNow : DateTime := ⟨2026, 10, 12, 13, 5, 9, 123⟩

/-- The same second as `sampleNow`, different microsecond. -/
def sampleNowLater : DateTime := ⟨2026, 10, 12, 13, 5, 9, 999999⟩

/-- A sample collaborator environment: a three-case dataset at `d.json`,
succeeding tester, normalizer and evaluator. -/
def baseEnv : Env := {
  now := sampleNow,
  fs := [],
  dataset_json := fun p =>
    if p = "d.json" then
      some [JValue.str "c1", JValue.str "c2", JValue.str "c3"]
    else none,
  tester_result := Except.ok (JValue.str "raw"),
  processed_result := Except.ok (JValue.str "proc"),
  evaluate_outcome := EvalOutcome.ok }

/-- Arguments of an evaluation-only invocation with a processed file. -/
def c1Args : Args := { eval_only := true, processed_responses := some "p.json" }

/-- Arguments of a full openai run with the key flag absent. -/
def c2Args : Args := { model_type := some "openai", dataset := some "d.json" }

/-- Environment in which the user has exported an OpenAI key. -/
def c2Env : Env := { baseEnv with env_openai_api_key := some "sk-from-env" }

/-- Arguments of a full gemini run. -/
def gemArgs : Args := { model_type := some "gemini", dataset := some "d.json" }

/-- Arguments of a full gemini run with evaluation skipped. -/
def gemSkipArgs : Args := { gemArgs with skip_evaluation := true }

/-- Arguments of a full openai run with the key flag supplied. -/
def oaiKeyArgs : Args := { c2Args with openai_api_key := some "sk-flag" }

/-- Environment whose evaluator scoring call raises a ValueError. -/
def valueErrorEnv : Env := { baseEnv with
  evaluate_outcome := EvalOutcome.valueError "boom" }

/-- An absent optional string is falsy. -/
theorem truthy_none : truthy none = false := rfl

/-- A supplied model type openai is truthy. -/
theorem truthy_openai : truthy (some "openai") = true := rfl

/-- A supplied model type gemini is truthy. -/
theorem truthy_gemini : truthy (some "gemini") = true := rfl

/-- Case characterization of the generation phase: its result trace and
outcome in each of the six collaborator-behaviour branches. -/
theorem generationPhase_shape (args : Args) (env : Env) (rdir ds : String)
    (m : Model) (tr : List Event) :
    (∃ msg, env.tester_result = Except.error msg ∧
      generationPhase args env rdir ds m tr =
        (tr ++ testExecEvents m, Outcome.uncaught msg)) ∨
    (∃ raw msg, env.tester_result = Except.ok raw ∧
      env.processed_result = Except.error msg ∧
      generationPhase args env rdir ds m tr =
        (tr ++ testExecEvents m ++ rawHandoffEvents rdir raw m,
         Outcome.uncaught msg)) ∨
    (∃ raw processed, env.tester_result = Except.ok raw ∧
      env.processed_result = Except.ok processed ∧
      args.skip_evaluation = true ∧
      generationPhase args env rdir ds m tr =
        (tr ++ testExecEvents m ++ rawHandoffEvents rdir raw m ++
         persistEvents args env rdir ds processed ++ skipEvents rdir,
         Outcome.normal)) ∨
    (∃ raw processed, env.tester_result = Except.ok raw ∧
      env.processed_result = Except.ok processed ∧
      args.skip_evaluation = false ∧
      env.evaluate_outcome = EvalOutcome.ok ∧
      generationPhase args env rdir ds m tr =
        (tr ++ testExecEvents m ++ rawHandoffEvents rdir raw m ++
         persistEvents args env rdir ds processed ++ evalStartEvents args rdir ++
         [Event.saveResults rdir], Outcome.normal)) ∨
    (∃ raw processed msg, env.tester_result = Except.ok raw ∧
      env.processed_result = Except.ok processed ∧
      args.skip_evaluation = false ∧
      env.evaluate_outcome = EvalOutcome.valueError msg ∧
      generationPhase args env rdir ds m tr =
        (tr ++ testExecEvents m ++ rawHandoffEvents rdir raw m ++
         persistEvents args env rdir ds processed ++ evalStartEvents args rdir ++
         [Event.logError ("Evaluation failed: " ++ msg)], Outcome.normal)) ∨
    (∃ raw processed msg, env.tester_result = Except.ok raw ∧
      env.processed_result = Except.ok processed ∧
      args.skip_evaluation = false ∧
      env.evaluate_outcome = EvalOutcome.otherError msg ∧
      generationPhase args env rdir ds m tr =
        (tr ++ testExecEvents m ++ rawHandoffEvents rdir raw m ++
         persistEvents args env rdir ds processed ++ evalStartEvents args rdir,
         Outcome.uncaught msg)) := by
  rcases htr : env.tester_result with msg | raw
  · exact Or.inl ⟨msg, rfl, by simp [generationPhase, htr]⟩
  · rcases hpr : env.processed_result with msg | processed
    · exact Or.inr (Or.inl ⟨raw, msg, rfl, rfl, by simp [generationPhase, htr, hpr]⟩)
    · rcases hsk : args.skip_evaluation with _ | _
      · rcases hev : env.evaluate_outcome with _ | msg | msg
        · exact Or.inr (Or.inr (Or.inr (Or.inl ⟨raw, processed, rfl, rfl, rfl, rfl,
            by simp [generationPhase, htr, hpr, hsk, hev]⟩)))
        · exact Or.inr (Or.inr (Or.inr (Or.inr (Or.inl ⟨raw, processed, msg, rfl, rfl,
            rfl, rfl, by simp [generationPhase, htr, hpr, hsk, hev]⟩))))
        · exact Or.inr (Or.inr (Or.inr (Or.inr (Or.inr ⟨raw, processed, msg, rfl, rfl,
            rfl, rfl, by simp [generationPhase, htr, hpr, hsk, hev]⟩))))
      · exact Or.inr (Or.inr (Or.inl ⟨raw, processed, rfl, rfl, rfl,
          by simp [generationPhase, htr, hpr, hsk]⟩))

/-- Case characterization of the orchestrator: the result of `main` in each
of the nine control-flow branches of `main.py`. -/
theorem main_shape (args : Args) (env : Env) :
    (args.eval_only = false ∧ truthy args.model_type = false ∧
      main args env =
        ([], Outcome.usageError "--model-type is required when not in eval-only mode")) ∨
    (args.eval_only = false ∧ truthy args.model_type = true ∧
      truthy args.dataset = false ∧
      main args env =
        ([], Outcome.usageError "--dataset is required when not in eval-only mode")) ∨
    (args.eval_only = true ∧ truthy args.processed_responses = false ∧
      main args env =
        ([], Outcome.usageError "--processed-responses is required when using eval-only mode")) ∨
    (args.eval_only = true ∧ truthy args.processed_responses = true ∧
      main args env =
        ([Event.makeDirs (runDirectory env.now),
          Event.logInfo "\nStarting evaluation-only mode",
          Event.logInfo ("Loading processed responses from: " ++
            optStr args.processed_responses)],
         Outcome.attributeError "mode")) ∨
    (args.eval_only = false ∧ truthy args.model_type = true ∧
      truthy args.dataset = true ∧
      env.dataset_json (optStr args.dataset) = none ∧
      main args env =
        ([Event.makeDirs (runDirectory env.now)] ++
           fullPrefixEvents args (optStr args.dataset),
         Outcome.uncaught ("load_dataset failed for " ++ optStr args.dataset))) ∨
    (∃ tds, args.eval_only = false ∧ truthy args.model_type = true ∧
      truthy args.dataset = true ∧
      env.dataset_json (optStr args.dataset) = some tds ∧
      args.model_type = some "openai" ∧ truthy args.openai_api_key = false ∧
      main args env =
        ([Event.makeDirs (runDirectory env.now)] ++
           fullPrefixEvents args (optStr args.dataset) ++
           [loadedEvent tds,
            Event.logError "Error: OpenAI API key is required for OpenAI model."],
         Outcome.normal)) ∨
    (∃ tds, args.eval_only = false ∧ truthy args.model_type = true ∧
      truthy args.dataset = true ∧
      env.dataset_json (optStr args.dataset) = some tds ∧
      args.model_type = some "openai" ∧ truthy args.openai_api_key = true ∧
      main args env =
        generationPhase args env (runDirectory env.now) (optStr args.dataset)
          (Model.openai args.openai_model_name (optStr args.openai_api_key) 0)
          ([Event.makeDirs (runDirectory env.now)] ++
             fullPrefixEvents args (optStr args.dataset) ++
             [loadedEvent tds,
              Event.logInfo ("Initializing OpenAI model: " ++ args.openai_model_name),
              Event.constructModel
                (Model.openai args.openai_model_name (optStr args.openai_api_key) 0)])) ∨
    (∃ tds, args.eval_only = false ∧ truthy args.model_type = true ∧
      truthy args.dataset = true ∧
      env.dataset_json (optStr args.dataset) = some tds ∧
      args.model_type = some "gemini" ∧
      main args env =
        generationPhase args env (runDirectory env.now) (optStr args.dataset)
          (Model.gemini args.gemini_model_id 0)
          ([Event.makeDirs (runDirectory env.now)] ++
             fullPrefixEvents args (optStr args.dataset) ++
             [loadedEvent tds,
              Event.logInfo ("Initializing Gemini model: " ++ args.gemini_model_id),
              Event.constructModel (Model.gemini args.gemini_model_id 0)])) ∨
    (∃ tds, args.eval_only = false ∧ truthy args.model_type = true ∧
      truthy args.dataset = true ∧
      env.dataset_json (optStr args.dataset) = some tds ∧
      args.model_type ≠ some "openai" ∧ args.model_type ≠ some "gemini" ∧
      main args env =
        ([Event.makeDirs (runDirectory env.now)] ++
           fullPrefixEvents args (optStr args.dataset) ++
           [loadedEvent tds, Event.logError "Invalid model type."],
         Outcome.normal)) := by
  rcases heo : args.eval_only with _ | _
  · rcases hmt : truthy args.model_type with _ | _
    · exact Or.inl ⟨rfl, rfl, by simp [main, heo, hmt]⟩
    · rcases hds : truthy args.dataset with _ | _
      · exact Or.inr (Or.inl ⟨rfl, rfl, rfl, by simp [main, heo, hmt, hds]⟩)
      · rcases hdj : env.dataset_json (optStr args.dataset) with _ | tds
        · refine Or.inr (Or.inr (Or.inr (Or.inr (Or.inl ⟨rfl, rfl, rfl, rfl, ?_⟩))))
          simp [main, fullRun, heo, hmt, hds, hdj, List.append_assoc]
        · by_cases ho : args.model_type = some "openai"
          · rcases hk : truthy args.openai_api_key with _ | _
            · refine Or.inr (Or.inr (Or.inr (Or.inr (Or.inr (Or.inl
                ⟨tds, rfl, rfl, rfl, rfl, ho, rfl, ?_⟩)))))
              simp [main, fullRun, heo, hmt, hds, hdj, ho, hk, truthy_openai, List.append_assoc]
            · refine Or.inr (Or.inr (Or.inr (Or.inr (Or.inr (Or.inr (Or.inl
                ⟨tds, rfl, rfl, rfl, rfl, ho, rfl, ?_⟩))))))
              simp [main, fullRun, heo, hmt, hds, hdj, ho, hk, truthy_openai, List.append_assoc]
          · by_cases hg : args.model_type = some "gemini"
            · refine Or.inr (Or.inr (Or.inr (Or.inr (Or.inr (Or.inr (Or.inr (Or.inl
                ⟨tds, rfl, rfl, rfl, rfl, hg, ?_⟩)))))))
              simp [main, fullRun, heo, hmt, hds, hdj, ho, hg, truthy_gemini, List.append_assoc]
            · refine Or.inr (Or.inr (Or.inr (Or.inr (Or.inr (Or.inr (Or.inr (Or.inr
                ⟨tds, rfl, rfl, rfl, rfl, ho, hg, ?_⟩)))))))
              simp [main, fullRun, heo, hmt, hds, hdj, ho, hg, truthy_gemini, List.append_assoc]
  · rcases hpr : truthy args.processed_responses with _ | _
    · exact Or.inr (Or.inr (Or.inl ⟨rfl, rfl, by simp [main, heo, hpr]⟩))
    · refine Or.inr (Or.inr (Or.inr (Or.inl ⟨rfl, rfl, ?_⟩)))
      simp [main, evalOnlyRun, heo, hpr, parserDests]

/-- The caught-evaluation log message is never the invalid-model-type log
message. -/
theorem eval_failed_ne_invalid (msg : String) :
    "Evaluation failed: " ++ msg ≠ "Invalid model type." := by
  intro h
  have hlen := congrArg String.length h
  rw [String.length_append] at hlen
  have h1 : ("Evaluation failed: ").length = 19 := rfl
  have h2 : ("Invalid model type.").length = 19 := rfl
  rw [h1, h2] at hlen
  have h0 : msg.length = 0 := by omega
  obtain ⟨data⟩ := msg
  have hnil : data = [] := List.length_eq_zero.mp h0
  subst hnil
  exact absurd h (by decide)

/-- The generation phase only appends events to the trace it receives. -/
theorem generationPhase_mono (args : Args) (env : Env) (rdir ds : String)
    (m : Model) (tr : List Event) (e : Event) (he : e ∈ tr) :
    e ∈ (generationPhase args env rdir ds m tr).1 := by
  rcases generationPhase_shape args env rdir ds m tr with
    ⟨_, _, hg⟩ | ⟨_, _, _, _, hg⟩ | ⟨_, _, _, _, _, hg⟩ |
    ⟨_, _, _, _, _, _, hg⟩ | ⟨_, _, _, _, _, _, _, hg⟩ |
    ⟨_, _, _, _, _, _, _, hg⟩ <;>
  rw [hg] <;> simp [List.mem_append, he]

/-- With evaluation skipped, the generation phase appends no evaluator
event to an evaluator-free trace. -/
theorem generationPhase_no_evaluator (args : Args) (env : Env)
    (rdir ds : String) (m : Model) (tr : List Event)
    (hskip : args.skip_evaluation = true)
    (htr : tr.all (fun e => !isEvaluatorEvent e) = true) :
    ((generationPhase args env rdir ds m tr).1.all
      (fun e => !isEvaluatorEvent e)) = true := by
  rcases generationPhase_shape args env rdir ds m tr with
    ⟨_, _, hg⟩ | ⟨_, _, _, _, hg⟩ | ⟨_, _, _, _, _, hg⟩ |
    ⟨_, _, _, _, hsk, _, hg⟩ | ⟨_, _, _, _, _, hsk, _, hg⟩ |
    ⟨_, _, _, _, _, hsk, _, hg⟩
  · rw [hg]
    simp_all [testExecEvents, isEvaluatorEvent]
  · rw [hg]
    simp_all [testExecEvents, rawHandoffEvents, isEvaluatorEvent]
  · rw [hg]
    simp_all [testExecEvents, rawHandoffEvents, persistEvents, skipEvents,
      isEvaluatorEvent]
  · rw [hskip] at hsk; cases hsk
  · rw [hskip] at hsk; cases hsk
  · rw [hskip] at hsk; cases hsk

/-- C8: the run directory path is derived from the start timestamp as
`results/test_run_<timestamp>`; the timestamp has second resolution, so
two instants agreeing on year, month, day, hour, minute and second (as two
invocations started in the same second do) derive the same directory name;
and creation with `exist_ok` succeeds on any file-system state, in
particular when the directory already exists. -/
theorem c8_run_directory_deterministic_idempotent
    (d1 d2 : DateTime) (fs : List String)
    (hy : d1.year = d2.year) (hmo : d1.month = d2.month)
    (hd : d1.day = d2.day) (hh : d1.hour = d2.hour)
    (hmi : d1.minute = d2.minute) (hs : d1.second = d2.second) :
    runDirectory d1 = "results/test_run_" ++ strftimeTs d1 ∧
    runDirectory d1 = runDirectory d2 ∧
    ∃ fs2, makedirsExistOk fs (runDirectory d1) = Except.ok fs2 := by
  refine ⟨?_, ?_, ?_⟩
  · rw [runDirectory, joinPath, ← String.append_assoc]
    rfl
  · simp [runDirectory, strftimeTs, hy, hmo, hd, hh, hmi, hs]
  · rw [makedirsExistOk]
    split
    · exact ⟨fs, rfl⟩
    · exact ⟨runDirectory d1 :: fs, rfl⟩

/-- Witness for C8 at two concrete instants in the same second (different
microseconds) and a file system already holding the directory. -/
theorem c8_run_directory_witness :
    runDirectory sampleNow = "results/test_run_" ++ strftimeTs sampleNow ∧
    runDirectory sampleNow = runDirectory sampleNowLater ∧
    ∃ fs2, makedirsExistOk ["results/test_run_20261012_130509"]
      (runDirectory sampleNow) = Except.ok fs2 :=
  c8_run_directory_deterministic_idempotent sampleNow sampleNowLater
    ["results/test_run_20261012_130509"] rfl rfl rfl rfl rfl rfl

/-- C5: a configuration missing both the dataset path and the
processed-responses path is rejected with a usage error naming a missing
field, with an empty event trace: no directory creation, no dataset read,
no write of any kind. -/
theorem c5_missing_paths_rejected_before_io (args : Args) (env : Env)
    (hd : args.dataset = none) (hp : args.processed_responses = none) :
    (main args env).1 = [] ∧
    ((main args env).2 =
        Outcome.usageError "--model-type is required when not in eval-only mode" ∨
     (main args env).2 =
        Outcome.usageError "--dataset is required when not in eval-only mode" ∨
     (main args env).2 =
        Outcome.usageError "--processed-responses is required when using eval-only mode") := by
  rcases heo : args.eval_only with _ | _
  · rcases hmt : truthy args.model_type with _ | _
    · simp [main, heo, hmt]
    · simp [main, heo, hmt, hd, truthy_none]
  · simp [main, heo, hp, truthy_none]

/-- Witness for C5 at the empty argument namespace. -/
theorem c5_missing_paths_witness :
    (main {} baseEnv).1 = [] ∧
    ((main {} baseEnv).2 =
        Outcome.usageError "--model-type is required when not in eval-only mode" ∨
     (main {} baseEnv).2 =
        Outcome.usageError "--dataset is required when not in eval-only mode" ∨
     (main {} baseEnv).2 =
        Outcome.usageError "--processed-responses is required when using eval-only mode") :=
  c5_missing_paths_rejected_before_io {} baseEnv rfl rfl

/-- C1 (code bug): on an eval-only configuration with a processed-responses
path, evaluating the orchestrator shows the run-directory creation and the
two opening logs, then an AttributeError on the parser-undefined attribute
`mode` (`main.py` line 105), raised while building the `Evaluator` call
arguments: no evaluator is constructed, its evaluate operation is never
invoked, and no results are persisted. -/
theorem c1_eval_only_raises_attribute_error :
    main c1Args baseEnv =
      ([Event.makeDirs "results/test_run_20261012_130509",
        Event.logInfo "\nStarting evaluation-only mode",
        Event.logInfo "Loading processed responses from: p.json"],
       Outcome.attributeError "mode") ∧
    (main c1Args baseEnv).1.all (fun e => !isEvaluatorEvent e) = true ∧
    "mode" ∉ parserDests ∧ "run_both_tool_modes" ∉ parserDests := by
  refine ⟨by decide, by decide, by decide, by decide⟩

/-- C4: with the skip-evaluation flag set, in either mode, no evaluator
event occurs in the trace: the evaluator is never constructed, its scoring
operation is never invoked, and its results are never persisted — so no
evaluator artifact is produced and no evaluator failure can arise. -/
theorem c4_skip_evaluation_no_evaluator (args : Args) (env : Env)
    (hskip : args.skip_evaluation = true) :
    (main args env).1.all (fun e => !isEvaluatorEvent e) = true := by
  rcases main_shape args env with
    ⟨_, _, hm⟩ | ⟨_, _, _, hm⟩ | ⟨_, _, hm⟩ | ⟨_, _, hm⟩ | ⟨_, _, _, _, hm⟩ |
    ⟨tds, _, _, _, _, _, _, hm⟩ | ⟨tds, _, _, _, _, _, _, hm⟩ |
    ⟨tds, _, _, _, _, _, hm⟩ | ⟨tds, _, _, _, _, _, _, hm⟩
  · rw [hm]; rfl
  · rw [hm]; rfl
  · rw [hm]; rfl
  · rw [hm]; simp [isEvaluatorEvent]
  · rw [hm]; simp [fullPrefixEvents, isEvaluatorEvent]
  · rw [hm]; simp [fullPrefixEvents, loadedEvent, isEvaluatorEvent]
  · rw [hm]
    exact generationPhase_no_evaluator _ _ _ _ _ _ hskip
      (by simp [fullPrefixEvents, loadedEvent, isEvaluatorEvent])
  · rw [hm]
    exact generationPhase_no_evaluator _ _ _ _ _ _ hskip
      (by simp [fullPrefixEvents, loadedEvent, isEvaluatorEvent])
  · rw [hm]; simp [fullPrefixEvents, loadedEvent, isEvaluatorEvent]

/-- Witness for C4: a full gemini run with evaluation skipped. -/
theorem c4_skip_evaluation_witness :
    (main gemSkipArgs baseEnv).1.all (fun e => !isEvaluatorEvent e) = true :=
  c4_skip_evaluation_no_evaluator gemSkipArgs baseEnv rfl

/-- C6: in eval-only mode neither the generation nor the normalization
stage runs: the trace holds no dataset read, no model-client construction
and no file write (in particular neither raw_responses.json nor
processed_responses.json is newly written), and any scoring call targets
only the user-supplied processed-responses path. -/
theorem c6_eval_only_frame (args : Args) (env : Env)
    (h : args.eval_only = true) :
    (main args env).1.all (fun e => !isLoadDataset e) = true ∧
    (main args env).1.all (fun e => !isModelConstruction e) = true ∧
    (main args env).1.all (fun e => !isWrite e) = true ∧
    (main args env).1.all (evaluatesOnly (optStr args.processed_responses)) = true := by
  rcases main_shape args env with
    ⟨hf, _, hm⟩ | ⟨hf, _, _, hm⟩ | ⟨_, _, hm⟩ | ⟨_, _, hm⟩ | ⟨hf, _, _, _, hm⟩ |
    ⟨tds, hf, _, _, _, _, _, hm⟩ | ⟨tds, hf, _, _, _, _, _, hm⟩ |
    ⟨tds, hf, _, _, _, _, hm⟩ | ⟨tds, hf, _, _, _, _, _, hm⟩
  · rw [h] at hf; exact absurd hf (by decide)
  · rw [h] at hf; exact absurd hf (by decide)
  · rw [hm]; exact ⟨rfl, rfl, rfl, rfl⟩
  · rw [hm]
    simp [isLoadDataset, isModelConstruction, isWrite, evaluatesOnly]
  · rw [h] at hf; exact absurd hf (by decide)
  · rw [h] at hf; exact absurd hf (by decide)
  · rw [h] at hf; exact absurd hf (by decide)
  · rw [h] at hf; exact absurd hf (by decide)
  · rw [h] at hf; exact absurd hf (by decide)

/-- Witness for C6 at the concrete eval-only configuration. -/
theorem c6_eval_only_witness :
    (main c1Args baseEnv).1.all (fun e => !isLoadDataset e) = true ∧
    (main c1Args baseEnv).1.all (fun e => !isModelConstruction e) = true ∧
    (main c1Args baseEnv).1.all (fun e => !isWrite e) = true ∧
    (main c1Args baseEnv).1.all
      (evaluatesOnly (optStr c1Args.processed_responses)) = true :=
  c6_eval_only_frame c1Args baseEnv rfl

/-- The generation phase never logs the invalid-model-type message. -/
theorem generationPhase_no_invalid_log (args : Args) (env : Env)
    (rdir ds : String) (m : Model) (tr : List Event)
    (htr : Event.logError "Invalid model type." ∉ tr) :
    Event.logError "Invalid model type." ∉
      (generationPhase args env rdir ds m tr).1 := by
  rcases generationPhase_shape args env rdir ds m tr with
    ⟨_, _, hg⟩ | ⟨_, _, _, _, hg⟩ | ⟨_, _, _, _, _, hg⟩ |
    ⟨_, _, _, _, _, _, hg⟩ | ⟨_, _, msg, _, _, _, _, hg⟩ |
    ⟨_, _, _, _, _, _, _, hg⟩ <;>
  rw [hg] <;>
  simp [testExecEvents, rawHandoffEvents, persistEvents, skipEvents,
    evalStartEvents, htr, (eval_failed_ne_invalid _).symm]

/-- C10: when the model type passed the parser choices (gemini or openai)
and the run is in full mode, the final invalid-model-type branch of the
dispatch is unreachable: its log message never appears in the trace. -/
theorem c10_invalid_model_type_unreachable (args : Args) (env : Env)
    (s : String) (hmt : args.model_type = some s)
    (hchoice : s = "gemini" ∨ s = "openai")
    (hfull : args.eval_only = false) :
    Event.logError "Invalid model type." ∉ (main args env).1 := by
  rcases main_shape args env with
    ⟨_, _, hm⟩ | ⟨_, _, _, hm⟩ | ⟨hf, _, hm⟩ | ⟨hf, _, hm⟩ | ⟨_, _, _, _, hm⟩ |
    ⟨tds, _, _, _, _, _, _, hm⟩ | ⟨tds, _, _, _, _, _, _, hm⟩ |
    ⟨tds, _, _, _, _, _, hm⟩ | ⟨tds, _, _, _, _, ho, hg, hm⟩
  · rw [hm]; simp
  · rw [hm]; simp
  · rw [hfull] at hf; exact absurd hf (by decide)
  · rw [hfull] at hf; exact absurd hf (by decide)
  · rw [hm]; simp [fullPrefixEvents]
  · rw [hm]
    simp [fullPrefixEvents, loadedEvent,
      (by decide : ("Invalid model type." : String) ≠
        "Error: OpenAI API key is required for OpenAI model.")]
  · rw [hm]
    exact generationPhase_no_invalid_log _ _ _ _ _ _
      (by simp [fullPrefixEvents, loadedEvent])
  · rw [hm]
    exact generationPhase_no_invalid_log _ _ _ _ _ _
      (by simp [fullPrefixEvents, loadedEvent])
  · rcases hchoice with hc | hc
    · subst hc; exact absurd hmt hg
    · subst hc; exact absurd hmt ho

/-- Witness for C10 at the concrete full gemini configuration. -/
theorem c10_invalid_model_type_witness :
    Event.logError "Invalid model type." ∉ (main gemArgs baseEnv).1 :=
  c10_invalid_model_type_unreachable gemArgs baseEnv "gemini" rfl (Or.inl rfl) rfl

/-- C2 (amended): for every full-mode openai configuration with a loadable
dataset, the orchestrator consults only the explicit key flag, never the
process environment.  A falsy flag yields the logged credential error and
a normal return whose whole trace is the directory creation, the opening
logs, the dataset read and the error log — after directory creation and
dataset load, before any model client or file write.  A truthy flag
proceeds to openai model construction. -/
theorem c2_credential_gate (args : Args) (env : Env) (tds : List JValue)
    (hfull : args.eval_only = false)
    (hmt : args.model_type = some "openai")
    (hds : truthy args.dataset = true)
    (hload : env.dataset_json (optStr args.dataset) = some tds) :
    (truthy args.openai_api_key = false →
      main args env =
        ([Event.makeDirs (runDirectory env.now)] ++
           fullPrefixEvents args (optStr args.dataset) ++
           [loadedEvent tds,
            Event.logError "Error: OpenAI API key is required for OpenAI model."],
         Outcome.normal)) ∧
    (truthy args.openai_api_key = true →
      Event.constructModel
        (Model.openai args.openai_model_name (optStr args.openai_api_key) 0)
        ∈ (main args env).1) := by
  rcases main_shape args env with
    ⟨_, hmtF, _⟩ | ⟨_, _, hdsF, _⟩ | ⟨hf, _, _⟩ | ⟨hf, _, _⟩ | ⟨_, _, _, hdj, _⟩ |
    ⟨tds2, _, _, _, hdj, _, hkF, hm⟩ | ⟨tds2, _, _, _, hdj, _, hkT, hm⟩ |
    ⟨tds2, _, _, _, _, hgem, _⟩ | ⟨tds2, _, _, _, _, hno, _, _⟩
  · rw [hmt] at hmtF; exact absurd hmtF (by decide)
  · rw [hds] at hdsF; exact absurd hdsF (by decide)
  · rw [hfull] at hf; exact absurd hf (by decide)
  · rw [hfull] at hf; exact absurd hf (by decide)
  · rw [hload] at hdj; exact absurd hdj (by simp)
  · rw [hload] at hdj
    injection hdj with h2
    subst h2
    refine ⟨fun _ => hm, fun hkT => ?_⟩
    rw [hkF] at hkT; exact absurd hkT (by decide)
  · refine ⟨fun hkF => ?_, fun _ => ?_⟩
    · rw [hkT] at hkF; exact absurd hkF (by decide)
    · rw [hm]
      exact generationPhase_mono _ _ _ _ _ _ _ (by simp)
  · rw [hmt] at hgem; injection hgem with h3; exact absurd h3 (by decide)
  · exact absurd hmt hno

/-- C2 counterexample: the key flag is absent while the key sits in the
process environment and the dataset is loadable.  The claim says the run
proceeds (key resolvable from the environment) and that any credential
failure happens before any I/O; evaluating the code shows a logged
credential error with a normal return, no model-client construction, and
directory creation plus dataset read already performed. -/
theorem c2_env_key_ignored_counterexample :
    c2Env.env_openai_api_key = some "sk-from-env" ∧
    main c2Args c2Env =
      ([Event.makeDirs "results/test_run_20261012_130509",
        Event.logInfo "\nStarting test run with openai model",
        Event.logInfo "Loading dataset from: d.json",
        Event.loadDatasetCall "d.json",
        Event.logInfo "Loaded 3 test cases",
        Event.logError "Error: OpenAI API key is required for OpenAI model."],
       Outcome.normal) ∧
    (main c2Args c2Env).1.all (fun e => !isModelConstruction e) = true ∧
    Event.makeDirs "results/test_run_20261012_130509" ∈ (main c2Args c2Env).1 ∧
    Event.loadDatasetCall "d.json" ∈ (main c2Args c2Env).1 := by
  refine ⟨by decide, by decide, by decide, by decide, by decide⟩

/-- Witness for C2 at concrete inputs: flag absent yields the credential
error trace; flag supplied proceeds to openai model construction. -/
theorem c2_credential_gate_witness :
    main c2Args baseEnv =
      ([Event.makeDirs (runDirectory baseEnv.now)] ++
         fullPrefixEvents c2Args (optStr c2Args.dataset) ++
         [loadedEvent [JValue.str "c1", JValue.str "c2", JValue.str "c3"],
          Event.logError "Error: OpenAI API key is required for OpenAI model."],
       Outcome.normal) ∧
    Event.constructModel (Model.openai "gpt-4o-mini" "sk-flag" 0)
      ∈ (main oaiKeyArgs baseEnv).1 := by
  constructor
  · exact (c2_credential_gate c2Args baseEnv
      [JValue.str "c1", JValue.str "c2", JValue.str "c3"]
      rfl rfl (by decide) (by decide)).1 (by decide)
  · exact (c2_credential_gate oaiKeyArgs baseEnv
      [JValue.str "c1", JValue.str "c2", JValue.str "c3"]
      rfl rfl (by decide) (by decide)).2 (by decide)

/-- Appending after an evaluate-free prefix leaves the no-write-after-scoring
check to the suffix. -/
theorem noWriteAfterEvaluate_append (tr s : List Event)
    (htr : tr.all (fun e => !isEvaluate e) = true) :
    noWriteAfterEvaluate (tr ++ s) = noWriteAfterEvaluate s := by
  induction tr with
  | nil => rfl
  | cons a l ih =>
    rw [List.all_cons, Bool.and_eq_true] at htr
    obtain ⟨ha, hl⟩ := htr
    have ha2 : isEvaluate a = false := by
      revert ha; cases isEvaluate a <;> simp
    rw [List.cons_append, noWriteAfterEvaluate, ha2]
    simp [ih hl]

/-- In the generation phase, a ValueError from the scoring call is caught:
the outcome is normal, the message is logged, and nothing is written at or
after the scoring call. -/
theorem generationPhase_value_error (args : Args) (env : Env)
    (rdir ds : String) (m : Model) (tr : List Event) (msg p : String)
    (hev : env.evaluate_outcome = EvalOutcome.valueError msg)
    (hin : Event.evaluateResults p ∈ (generationPhase args env rdir ds m tr).1)
    (htr : tr.all (fun e => !isEvaluate e) = true) :
    (generationPhase args env rdir ds m tr).2 = Outcome.normal ∧
    Event.logError ("Evaluation failed: " ++ msg) ∈
      (generationPhase args env rdir ds m tr).1 ∧
    noWriteAfterEvaluate (generationPhase args env rdir ds m tr).1 = true := by
  rcases generationPhase_shape args env rdir ds m tr with
    ⟨msg2, ht, hg⟩ | ⟨raw, msg2, ht, hp2, hg⟩ | ⟨raw, proc, ht, hp2, hsk, hg⟩ |
    ⟨raw, proc, ht, hp2, hsk, hev2, hg⟩ | ⟨raw, proc, msg2, ht, hp2, hsk, hev2, hg⟩ |
    ⟨raw, proc, msg2, ht, hp2, hsk, hev2, hg⟩
  · rw [hg] at hin
    rcases List.mem_append.mp hin with h | h
    · have := List.all_eq_true.mp htr _ h
      simp [isEvaluate] at this
    · simp [testExecEvents] at h
  · rw [hg] at hin
    simp only [List.mem_append] at hin
    rcases hin with (h | h) | h
    · have := List.all_eq_true.mp htr _ h
      simp [isEvaluate] at this
    · simp [testExecEvents] at h
    · simp [rawHandoffEvents] at h
  · rw [hg] at hin
    simp only [List.mem_append] at hin
    rcases hin with (((h | h) | h) | h) | h
    · have := List.all_eq_true.mp htr _ h
      simp [isEvaluate] at this
    · simp [testExecEvents] at h
    · simp [rawHandoffEvents] at h
    · simp [persistEvents] at h
    · simp [skipEvents] at h
  · rw [hev] at hev2; cases hev2
  · rw [hev] at hev2
    injection hev2 with hmsg
    subst hmsg
    rw [hg]
    refine ⟨rfl, ?_, ?_⟩
    · simp
    · dsimp only
      simp only [List.append_assoc]
      rw [noWriteAfterEvaluate_append tr _ htr]
      simp [testExecEvents, rawHandoffEvents, persistEvents, evalStartEvents,
        noWriteAfterEvaluate, isEvaluate, isWrite]
  · rw [hev] at hev2; cases hev2

/-- C3: whenever the orchestrator reaches a scoring call and the evaluator
raises a ValueError, the failure is caught at the orchestrator boundary:
the message is logged, the run returns normally (no exception escapes),
and no orchestrator file write happens at or after any scoring call — in
particular raw_responses.json and processed_responses.json stay exactly as
written (the embedding has no deletion event at all). -/
theorem c3_value_error_caught (args : Args) (env : Env) (msg p : String)
    (hev : env.evaluate_outcome = EvalOutcome.valueError msg)
    (hin : Event.evaluateResults p ∈ (main args env).1) :
    (main args env).2 = Outcome.normal ∧
    Event.logError ("Evaluation failed: " ++ msg) ∈ (main args env).1 ∧
    noWriteAfterEvaluate (main args env).1 = true := by
  rcases main_shape args env with
    ⟨_, _, hm⟩ | ⟨_, _, _, hm⟩ | ⟨_, _, hm⟩ | ⟨_, _, hm⟩ | ⟨_, _, _, _, hm⟩ |
    ⟨tds, _, _, _, _, _, _, hm⟩ | ⟨tds, _, _, _, _, _, _, hm⟩ |
    ⟨tds, _, _, _, _, _, hm⟩ | ⟨tds, _, _, _, _, _, _, hm⟩
  · rw [hm] at hin; simp at hin
  · rw [hm] at hin; simp at hin
  · rw [hm] at hin; simp at hin
  · rw [hm] at hin; simp at hin
  · rw [hm] at hin; simp [fullPrefixEvents] at hin
  · rw [hm] at hin; simp [fullPrefixEvents, loadedEvent] at hin
  · rw [hm] at hin ⊢
    exact generationPhase_value_error _ _ _ _ _ _ _ _ hev hin
      (by simp [fullPrefixEvents, loadedEvent, isEvaluate])
  · rw [hm] at hin ⊢
    exact generationPhase_value_error _ _ _ _ _ _ _ _ hev hin
      (by simp [fullPrefixEvents, loadedEvent, isEvaluate])
  · rw [hm] at hin; simp [fullPrefixEvents, loadedEvent] at hin

/-- Witness for C3: a full gemini run whose evaluator raises a ValueError
with message boom. -/
theorem c3_value_error_witness :
    (main gemArgs valueErrorEnv).2 = Outcome.normal ∧
    Event.logError ("Evaluation failed: " ++ "boom") ∈
      (main gemArgs valueErrorEnv).1 ∧
    noWriteAfterEvaluate (main gemArgs valueErrorEnv).1 = true :=
  c3_value_error_caught gemArgs valueErrorEnv "boom"
    "results/test_run_20261012_130509/processed_responses.json" rfl (by decide)

/-- Adjacency in a trace survives prepending events. -/
theorem adjacentIn_append_left (e1 e2 : Event) (l1 l2 : List Event)
    (h : adjacentIn e1 e2 l2) : adjacentIn e1 e2 (l1 ++ l2) := by
  induction l1 with
  | nil => simpa using h
  | cons a l ih => exact Or.inr ih

/-- In the generation phase with a successful tester, the raw-results
write (the test_results envelope into raw_responses.json) is immediately
followed by the normalizer invocation carrying that file path and the
model client, and every normalizer invocation in the trace carries exactly
that path and client. -/
theorem generationPhase_handoff (args : Args) (env : Env) (rdir ds : String)
    (m : Model) (tr : List Event) (raw : JValue)
    (htest : env.tester_result = Except.ok raw)
    (htr : tr.all (fun e => !isProcessRaw e) = true) :
    adjacentIn
      (Event.writeFile (joinPath rdir "raw_responses.json")
        (JValue.objOf [("test_results", raw)]))
      (Event.processRaw (joinPath rdir "raw_responses.json") m)
      (generationPhase args env rdir ds m tr).1 ∧
    ∀ q m2, Event.processRaw q m2 ∈ (generationPhase args env rdir ds m tr).1 →
      q = joinPath rdir "raw_responses.json" ∧ m2 = m := by
  rcases generationPhase_shape args env rdir ds m tr with
    ⟨msg, ht, hg⟩ | ⟨raw2, msg, ht, hp2, hg⟩ | ⟨raw2, proc, ht, hp2, hsk, hg⟩ |
    ⟨raw2, proc, ht, hp2, hsk, hev, hg⟩ | ⟨raw2, proc, msg, ht, hp2, hsk, hev, hg⟩ |
    ⟨raw2, proc, msg, ht, hp2, hsk, hev, hg⟩
  · rw [htest] at ht; cases ht
  all_goals
    rw [htest] at ht
  all_goals
    injection ht with hraw
  all_goals
    subst hraw
  all_goals
    rw [hg]
  all_goals
    constructor
  all_goals
    first
    | (dsimp only
       simp only [List.append_assoc]
       apply adjacentIn_append_left
       simp [adjacentIn, testExecEvents, rawHandoffEvents])
    | (intro q m2 hq
       dsimp only at hq
       simp [List.mem_append, List.mem_cons, List.not_mem_nil,
         testExecEvents, rawHandoffEvents, persistEvents, evalStartEvents,
         skipEvents] at hq
       rcases hq with h | h
       · have := List.all_eq_true.mp htr _ h
         simp [isProcessRaw] at this
       · exact h)

/-- C7: in full mode with a constructed model client, on tester success
the raw result is written wrapped in the test_results envelope to
raw_responses.json in the run directory, immediately followed by the
normalizer invocation that receives that file path together with the
model client; every normalizer invocation carries exactly that path and
client. -/
theorem c7_raw_envelope_handoff (args : Args) (env : Env) (tds : List JValue)
    (raw : JValue) (m : Model)
    (hfull : args.eval_only = false)
    (hmodel :
      (args.model_type = some "openai" ∧ truthy args.openai_api_key = true ∧
        m = Model.openai args.openai_model_name (optStr args.openai_api_key) 0) ∨
      (args.model_type = some "gemini" ∧ m = Model.gemini args.gemini_model_id 0))
    (hds : truthy args.dataset = true)
    (hload : env.dataset_json (optStr args.dataset) = some tds)
    (htest : env.tester_result = Except.ok raw) :
    adjacentIn
      (Event.writeFile (joinPath (runDirectory env.now) "raw_responses.json")
        (JValue.objOf [("test_results", raw)]))
      (Event.processRaw (joinPath (runDirectory env.now) "raw_responses.json") m)
      (main args env).1 ∧
    ∀ q m2, Event.processRaw q m2 ∈ (main args env).1 →
      q = joinPath (runDirectory env.now) "raw_responses.json" ∧ m2 = m := by
  rcases main_shape args env with
    ⟨_, hmtF, _⟩ | ⟨_, _, hdsF, _⟩ | ⟨hf, _, _⟩ | ⟨hf, _, _⟩ | ⟨_, _, _, hdj, _⟩ |
    ⟨tds2, _, _, _, hdj, hoa, hkF, hm⟩ | ⟨tds2, _, _, _, hdj, hoa, hkT, hm⟩ |
    ⟨tds2, _, _, _, _, hgem, hm⟩ | ⟨tds2, _, _, _, _, hno, hng, _⟩
  · rcases hmodel with ⟨ho, _, _⟩ | ⟨hg, _⟩
    · rw [ho] at hmtF; exact absurd hmtF (by decide)
    · rw [hg] at hmtF; exact absurd hmtF (by decide)
  · rw [hds] at hdsF; exact absurd hdsF (by decide)
  · rw [hfull] at hf; exact absurd hf (by decide)
  · rw [hfull] at hf; exact absurd hf (by decide)
  · rw [hload] at hdj; exact absurd hdj (by simp)
  · rcases hmodel with ⟨_, hkT, _⟩ | ⟨hg, _⟩
    · rw [hkT] at hkF; exact absurd hkF (by decide)
    · rw [hg] at hoa; injection hoa with h3; exact absurd h3 (by decide)
  · rcases hmodel with ⟨_, _, hme⟩ | ⟨hg, _⟩
    · subst hme
      rw [hm]
      exact generationPhase_handoff _ _ _ _ _ _ _ htest
        (by simp [fullPrefixEvents, loadedEvent, isProcessRaw])
    · rw [hg] at hoa; injection hoa with h3; exact absurd h3 (by decide)
  · rcases hmodel with ⟨ho, _, _⟩ | ⟨_, hme⟩
    · rw [ho] at hgem; injection hgem with h3; exact absurd h3 (by decide)
    · subst hme
      rw [hm]
      exact generationPhase_handoff _ _ _ _ _ _ _ htest
        (by simp [fullPrefixEvents, loadedEvent, isProcessRaw])
  · rcases hmodel with ⟨ho, _, _⟩ | ⟨hg, _⟩
    · exact absurd ho hno
    · exact absurd hg hng

/-- Witness for C7: the adjacency conjunct at the concrete full gemini
run. -/
theorem c7_raw_envelope_witness :
    adjacentIn
      (Event.writeFile (joinPath (runDirectory baseEnv.now) "raw_responses.json")
        (JValue.objOf [("test_results", JValue.str "raw")]))
      (Event.processRaw (joinPath (runDirectory baseEnv.now) "raw_responses.json")
        (Model.gemini "gemini-1.5-flash-002" 0))
      (main gemArgs baseEnv).1 :=
  (c7_raw_envelope_handoff gemArgs baseEnv
    [JValue.str "c1", JValue.str "c2", JValue.str "c3"] (JValue.str "raw")
    (Model.gemini "gemini-1.5-flash-002" 0) rfl (Or.inr ⟨rfl, rfl⟩)
    (by decide) (by decide) rfl).1

/-- After successful generation and normalization, the generation phase
writes the parameters record to test_parameters.json in the run
directory. -/
theorem generationPhase_params_write (args : Args) (env : Env)
    (rdir ds : String) (m : Model) (tr : List Event) (raw processed : JValue)
    (htest : env.tester_result = Except.ok raw)
    (hproc : env.processed_result = Except.ok processed) :
    Event.writeFile (joinPath rdir "test_parameters.json")
      (paramsJson args env ds) ∈ (generationPhase args env rdir ds m tr).1 := by
  rcases generationPhase_shape args env rdir ds m tr with
    ⟨msg, ht, hg⟩ | ⟨raw2, msg, ht, hp2, hg⟩ | ⟨raw2, proc2, ht, hp2, hsk, hg⟩ |
    ⟨raw2, proc2, ht, hp2, hsk, hev, hg⟩ |
    ⟨raw2, proc2, msg, ht, hp2, hsk, hev, hg⟩ |
    ⟨raw2, proc2, msg, ht, hp2, hsk, hev, hg⟩
  · rw [htest] at ht; cases ht
  · rw [hproc] at hp2; cases hp2
  all_goals rw [hg]
  all_goals simp [persistEvents]

/-- C9: in full mode, after successful generation and normalization, the
RunParameters record written to test_parameters.json holds the timestamp,
the model kind, the dataset path, the resolved model identifier (the
gemini model id when the model type is gemini, otherwise the openai model
name), the judge-model identifier (null exactly when evaluation is
skipped), and a generation configuration with temperature zero. -/
theorem c9_test_parameters_snapshot (args : Args) (env : Env)
    (tds : List JValue) (raw processed : JValue)
    (hfull : args.eval_only = false)
    (hmodel :
      (args.model_type = some "openai" ∧ truthy args.openai_api_key = true) ∨
      args.model_type = some "gemini")
    (hds : truthy args.dataset = true)
    (hload : env.dataset_json (optStr args.dataset) = some tds)
    (htest : env.tester_result = Except.ok raw)
    (hproc : env.processed_result = Except.ok processed) :
    Event.writeFile (joinPath (runDirectory env.now) "test_parameters.json")
      (JValue.objOf [
        ("timestamp", JValue.str (strftimeTs env.now)),
        ("model_type", JValue.str (optStr args.model_type)),
        ("dataset_path", JValue.str (optStr args.dataset)),
        ("model_id", JValue.str (if args.model_type = some "gemini" then
            args.gemini_model_id else args.openai_model_name)),
        ("semantic_judge_model", if args.skip_evaluation then JValue.null
            else JValue.str args.semantic_judge_model),
        ("generation_config", JValue.objOf [("temperature", JValue.num 0)])])
      ∈ (main args env).1 := by
  rcases main_shape args env with
    ⟨_, hmtF, _⟩ | ⟨_, _, hdsF, _⟩ | ⟨hf, _, _⟩ | ⟨hf, _, _⟩ | ⟨_, _, _, hdj, _⟩ |
    ⟨tds2, _, _, _, hdj, hoa, hkF, hm⟩ | ⟨tds2, _, _, _, hdj, hoa, hkT, hm⟩ |
    ⟨tds2, _, _, _, _, hgem, hm⟩ | ⟨tds2, _, _, _, _, hno, hng, _⟩
  · rcases hmodel with ⟨ho, _⟩ | hg
    · rw [ho] at hmtF; exact absurd hmtF (by decide)
    · rw [hg] at hmtF; exact absurd hmtF (by decide)
  · rw [hds] at hdsF; exact absurd hdsF (by decide)
  · rw [hfull] at hf; exact absurd hf (by decide)
  · rw [hfull] at hf; exact absurd hf (by decide)
  · rw [hload] at hdj; exact absurd hdj (by simp)
  · rcases hmodel with ⟨_, hkT⟩ | hg
    · rw [hkT] at hkF; exact absurd hkF (by decide)
    · rw [hg] at hoa; injection hoa with h3; exact absurd h3 (by decide)
  · rw [hm]
    have h := generationPhase_params_write args env (runDirectory env.now)
      (optStr args.dataset)
      (Model.openai args.openai_model_name (optStr args.openai_api_key) 0)
      ([Event.makeDirs (runDirectory env.now)] ++
        fullPrefixEvents args (optStr args.dataset) ++
        [loadedEvent tds2,
         Event.logInfo ("Initializing OpenAI model: " ++ args.openai_model_name),
         Event.constructModel (Model.openai args.openai_model_name
           (optStr args.openai_api_key) 0)])
      raw processed htest hproc
    simpa [paramsJson] using h
  · rw [hm]
    have h := generationPhase_params_write args env (runDirectory env.now)
      (optStr args.dataset) (Model.gemini args.gemini_model_id 0)
      ([Event.makeDirs (runDirectory env.now)] ++
        fullPrefixEvents args (optStr args.dataset) ++
        [loadedEvent tds2,
         Event.logInfo ("Initializing Gemini model: " ++ args.gemini_model_id),
         Event.constructModel (Model.gemini args.gemini_model_id 0)])
      raw processed htest hproc
    simpa [paramsJson] using h
  · rcases hmodel with ⟨ho, _⟩ | hg
    · exact absurd ho hno
    · exact absurd hg hng

/-- Witness for C9 at the concrete full gemini run. -/
theorem c9_test_parameters_witness :
    Event.writeFile (joinPath (runDirectory baseEnv.now) "test_parameters.json")
      (JValue.objOf [
        ("timestamp", JValue.str "20261012_130509"),
        ("model_type", JValue.str "gemini"),
        ("dataset_path", JValue.str "d.json"),
        ("model_id", JValue.str "gemini-1.5-flash-002"),
        ("semantic_judge_model", JValue.str "gemini-1.5-pro-002"),
        ("generation_config", JValue.objOf [("temperature", JValue.num 0)])])
      ∈ (main gemArgs baseEnv).1 :=
  c9_test_parameters_snapshot gemArgs baseEnv
    [JValue.str "c1", JValue.str "c2", JValue.str "c3"]
    (JValue.str "raw") (JValue.str "proc")
    rfl (Or.inr rfl) (by decide) (by decide) rfl rfl

end ToolSelection
